import Mathlib

/-!
Verification of the order-confirmation system.

This development gives a shallow embedding of the two availability engines and
the downstream pipeline agents of the repository, and proves (or refutes)
the frozen claims about them.

Modelling conventions:
* Python `int` is modelled as `Int` (arbitrary precision in both).
* Python `date` / `datetime.date` values are modelled as `Int` day numbers;
  `timedelta(days = k)` is `+ k`.  `date.today()` is an explicit `today`
  parameter.  `date.weekday()` (Monday = 0) is `d % 7` for an epoch that
  falls on a Monday; `Int.emod` agrees with Python `%` for a positive modulus.
* Python `datetime.now()` readings that only feed log ids and timestamps are
  explicit `String` parameters (their `strftime` rendering).
* `random.*` draws are explicit parameters (an injected randomness source).
* Code that would raise (`None + timedelta`) returns `Option`; `none` models
  the raised `TypeError`.
* `namespace ATPChecker` embeds `src/ATP_Checker_Agent.py`;
  `namespace ConfirmOrder` embeds `src/Confirm_Order_Process.py`.
-/

namespace ATPChecker

/-- The `OrderLine` dataclass of `ATP_Checker_Agent.py`. -/
structure OrderLine where
  order_id : String
  line_id : String
  item : String
  quantity : Int
  requested_date : Int
  ship_from : Option String := none
  priority : Option String := none
deriving DecidableEq

/-- The `InventorySnapshot` dataclass of `ATP_Checker_Agent.py`. -/
structure InventorySnapshot where
  item : String
  location : String
  on_hand_qty : Int
  safety_stock_qty : Int
  last_updated : String
deriving DecidableEq

/-- The `PurchaseOrder` dataclass of `ATP_Checker_Agent.py`. -/
structure PurchaseOrder where
  po_id : String
  item : String
  quantity : Int
  expected_delivery_date : Int
  location : String
  confirmed : Bool := false
deriving DecidableEq

/-- The `ATPResult` dataclass of `ATP_Checker_Agent.py`. -/
structure ATPResult where
  order_id : String
  line_id : String
  item : String
  requested_quantity : Int
  requested_date : Int
  available_quantity : Int
  earliest_available_date : Option Int
  status : String
  source : String
  messages : List String := []
deriving DecidableEq

/-- The `ATPConfig` of `ATP_Checker_Agent.py` (class attributes). -/
structure ATPConfig where
  allow_partial_ship : Bool := true
  consider_unconfirmed_pos : Bool := false
  default_safety_stock : Int := 10
  default_lead_time_days : Int := 14
  receiving_buffer_days : Int := 1
  quality_buffer_days : Int := 1
  transit_days_default : Int := 2
deriving DecidableEq

/-- The class-attribute values of `ATPConfig`. -/
def ATPConfig.base : ATPConfig := {}

/-- Python truthiness of an `Optional[str]`: `None` and `""` are falsy. -/
def truthyOpt : Option String → Bool
  | some s => s != ""
  | none => false

/-- The inventory filter of `ATPEngine.calculate_atp`: rows matching the
line's item, and the line's `ship_from` location when that is truthy. -/
def relevantInventory (line : OrderLine) (inventory : List InventorySnapshot) :
    List InventorySnapshot :=
  let r := inventory.filter (fun inv => inv.item == line.item)
  if truthyOpt line.ship_from then
    r.filter (fun inv => some inv.location == line.ship_from)
  else r

/-- Python `sum(inv.on_hand_qty for inv in relevant_inventory)`. -/
def totalOnHand (line : OrderLine) (inventory : List InventorySnapshot) : Int :=
  ((relevantInventory line inventory).map (fun inv => inv.on_hand_qty)).sum

/-- Python `sum(inv.safety_stock_qty for inv in relevant_inventory)`. -/
def totalSafetyStock (line : OrderLine) (inventory : List InventorySnapshot) : Int :=
  ((relevantInventory line inventory).map (fun inv => inv.safety_stock_qty)).sum

/-- Python `available_stock = max(0, total_on_hand - total_safety_stock)`. -/
def availableStock (line : OrderLine) (inventory : List InventorySnapshot) : Int :=
  max 0 (totalOnHand line inventory - totalSafetyStock line inventory)

/-- The purchase-order filter and sort of `ATPEngine.calculate_atp`:
match the item, match the `ship_from` location when truthy, drop unconfirmed
POs unless the policy keeps them, then sort ascending (stably) by expected
delivery date, as `list.sort(key = ...)` does. -/
def relevantPOs (cfg : ATPConfig) (line : OrderLine)
    (purchase_orders : List PurchaseOrder) : List PurchaseOrder :=
  let r := purchase_orders.filter (fun po => po.item == line.item)
  let r := if truthyOpt line.ship_from then
      r.filter (fun po => some po.location == line.ship_from)
    else r
  let r := if cfg.consider_unconfirmed_pos then r else r.filter (fun po => po.confirmed)
  r.mergeSort (fun a b => decide (a.expected_delivery_date ≤ b.expected_delivery_date))

/-- The buffer-day sum recomputed in each branch of `ATPEngine.calculate_atp`:
`receiving_buffer_days + quality_buffer_days + transit_days_default`. -/
def bufferDays (cfg : ATPConfig) : Int :=
  cfg.receiving_buffer_days + cfg.quality_buffer_days + cfg.transit_days_default

/-- The PO accumulation loop of `ATPEngine.calculate_atp`: starting from the
available stock, add each sorted PO's quantity and return the first PO at
which the running total reaches the requested quantity (`None` when the list
is exhausted first). -/
def findTriggeringPO (qty : Int) : Int → List PurchaseOrder → Option PurchaseOrder
  | _, [] => none
  | acc, po :: rest =>
    let acc2 := acc + po.quantity
    if qty ≤ acc2 then some po else findTriggeringPO qty acc2 rest

/-- The function `ATPEngine.calculate_atp` of `ATP_Checker_Agent.py`. -/
def calculate_atp (cfg : ATPConfig) (today : Int) (line : OrderLine)
    (inventory : List InventorySnapshot) (purchase_orders : List PurchaseOrder) :
    ATPResult :=
  let available_stock := availableStock line inventory
  let msgs0 := ["On-hand: " ++ toString (totalOnHand line inventory) ++
    ", Safety stock: " ++ toString (totalSafetyStock line inventory) ++
    ", Available: " ++ toString available_stock]
  if line.quantity ≤ available_stock then
    { order_id := line.order_id, line_id := line.line_id, item := line.item
      requested_quantity := line.quantity, requested_date := line.requested_date
      available_quantity := line.quantity
      earliest_available_date := some (max line.requested_date (today + bufferDays cfg))
      status := "AVAILABLE", source := "STOCK"
      messages := msgs0 ++ ["Full quantity available from stock"] }
  else if cfg.allow_partial_ship = true ∧ 0 < available_stock then
    { order_id := line.order_id, line_id := line.line_id, item := line.item
      requested_quantity := line.quantity, requested_date := line.requested_date
      available_quantity := available_stock
      earliest_available_date := some (max line.requested_date (today + bufferDays cfg))
      status := "PARTIAL", source := "STOCK"
      messages := msgs0 ++ ["Partial quantity " ++ toString available_stock ++
        " available, Short " ++ toString (line.quantity - available_stock) ++ " units"] }
  else
    match findTriggeringPO line.quantity available_stock
        (relevantPOs cfg line purchase_orders) with
    | some po =>
      { order_id := line.order_id, line_id := line.line_id, item := line.item
        requested_quantity := line.quantity, requested_date := line.requested_date
        available_quantity := line.quantity
        earliest_available_date :=
          some (max line.requested_date (po.expected_delivery_date + bufferDays cfg))
        status := if po.expected_delivery_date + bufferDays cfg ≤ line.requested_date
          then "AVAILABLE" else "BACKORDER"
        source := "INBOUND_PO"
        messages := msgs0 ++ ["Available from PO " ++ po.po_id ++ " (EDD: " ++
          toString po.expected_delivery_date ++ ")"] }
    | none =>
      { order_id := line.order_id, line_id := line.line_id, item := line.item
        requested_quantity := line.quantity, requested_date := line.requested_date
        available_quantity := line.quantity
        earliest_available_date :=
          some (today + (cfg.default_lead_time_days + bufferDays cfg))
        status := "BACKORDER", source := "FUTURE_PRODUCTION"
        messages := msgs0 ++ ["No stock or POs available. Using lead time of " ++
          toString (cfg.default_lead_time_days + bufferDays cfg) ++ " days"] }

end ATPChecker

namespace ConfirmOrder

/-- The `OrderLine` dataclass of `Confirm_Order_Process.py`.  The source field
`allow_partial` is rendered here as `allow_partial_flag`. -/
structure OrderLine where
  order_id : String
  line_id : String
  item : String
  quantity : Int
  requested_date : Int
  ship_from : String := "WAREHOUSE_01"
  priority : String := "NORMAL"
  customer_id : String := ""
  customer_name : String := ""
  customer_email : String := ""
  customer_delivery_window_start : Option String := none
  customer_delivery_window_end : Option String := none
  allow_partial_flag : Bool := true
deriving DecidableEq

/-- The `InventorySnapshot` dataclass of `Confirm_Order_Process.py`. -/
structure InventorySnapshot where
  item : String
  location : String
  on_hand_qty : Int
  safety_stock_qty : Int
  last_updated : String
deriving DecidableEq

/-- The `PurchaseOrder` dataclass of `Confirm_Order_Process.py`. -/
structure PurchaseOrder where
  po_id : String
  item : String
  quantity : Int
  expected_delivery_date : Int
  location : String
  confirmed : Bool := false
deriving DecidableEq

/-- The `ATPResult` dataclass of `Confirm_Order_Process.py`. -/
structure ATPResult where
  order_id : String
  line_id : String
  item : String
  requested_quantity : Int
  requested_date : Int
  available_quantity : Int
  earliest_available_date : Option Int
  status : String
  source : String
  messages : List String := []
deriving DecidableEq

/-- The `ScheduleResult` dataclass of `Confirm_Order_Process.py`. -/
structure ScheduleResult where
  order_id : String
  line_id : String
  item : String
  quantity : Int
  ship_date : Int
  delivery_date : Int
  carrier : String
  transit_days : Int
  meets_customer_window : Bool
  messages : List String := []
deriving DecidableEq

/-- One shipment dict of a `SplitDecision`
(`{quantity, ship_date, delivery_date, carrier, status}`). -/
structure Shipment where
  quantity : Int
  ship_date : Int
  delivery_date : Int
  carrier : String
  status : String
deriving DecidableEq

/-- The `SplitDecision` dataclass of `Confirm_Order_Process.py`. -/
structure SplitDecision where
  order_id : String
  line_id : String
  item : String
  total_quantity : Int
  shipments : List Shipment
  split_reason : String
  messages : List String := []
deriving DecidableEq

/-- The `Confirmation` dataclass of `Confirm_Order_Process.py` (the rendered
e-mail body is carried as an opaque string). -/
structure Confirmation where
  order_id : String
  customer_id : String
  customer_name : String
  customer_email : String
  confirmation_number : String
  confirmation_date : String
  total_lines : Nat
  total_shipments : Nat
  terms : String
  formatted_email : String
  messages : List String := []
deriving DecidableEq

/-- The `DispatchResult` dataclass of `Confirm_Order_Process.py`. -/
structure DispatchResult where
  confirmation_number : String
  order_id : String
  channel : String
  status : String
  attempt_count : Nat
  sent_timestamp : Option String
  receipt_confirmed : Bool
  messages : List String := []
deriving DecidableEq

/-- The `SystemConfig` of `Confirm_Order_Process.py` (class attributes).  The
unused float `split_cost_threshold` is omitted. -/
structure SystemConfig where
  allow_partial_ship : Bool := true
  consider_unconfirmed_pos : Bool := false
  default_safety_stock : Int := 10
  default_lead_time_days : Int := 14
  receiving_buffer_days : Int := 1
  carriers : List String := ["FedEx", "UPS", "DHL", "USPS"]
  carrier_transit_times : List (String × (Int × Int)) :=
    [("FedEx", (1, 3)), ("UPS", (2, 4)), ("DHL", (1, 5)), ("USPS", (3, 7))]
  carrier_blackout_dates : List Int := []
  max_splits_per_order : Nat := 3
  min_split_quantity : Int := 5
  channel_preference : List (String × String) :=
    [("PRIORITY", "API"), ("NORMAL", "EMAIL"), ("LOW", "EDI")]
  max_retry_attempts : Nat := 3
  audit_retention_days : Int := 2555
  enable_compliance_reporting : Bool := true
deriving DecidableEq

/-- The class-attribute values of `SystemConfig`. -/
def SystemConfig.base : SystemConfig := {}

/-- The function `ATPCheckerAgent.calculate_atp` of `Confirm_Order_Process.py`.  It uses
only the FIRST inventory row matching the item (`next(..., None)`), ignores
`ship_from`, and on a missing row returns BACKORDER/FUTURE_PRODUCTION at once
without consulting purchase orders. -/
def calculate_atp (cfg : SystemConfig) (line : OrderLine)
    (inventory : List InventorySnapshot) (purchase_orders : List PurchaseOrder) :
    ATPResult :=
  match inventory.find? (fun i => i.item == line.item) with
  | none =>
    { order_id := line.order_id, line_id := line.line_id, item := line.item
      requested_quantity := line.quantity, requested_date := line.requested_date
      available_quantity := 0
      earliest_available_date := some (line.requested_date + cfg.default_lead_time_days)
      status := "BACKORDER", source := "FUTURE_PRODUCTION"
      messages := ["No inventory found for " ++ line.item] }
  | some inv =>
    let available_stock := max 0 (inv.on_hand_qty - inv.safety_stock_qty)
    if line.quantity ≤ available_stock then
      { order_id := line.order_id, line_id := line.line_id, item := line.item
        requested_quantity := line.quantity, requested_date := line.requested_date
        available_quantity := line.quantity
        earliest_available_date := some line.requested_date
        status := "AVAILABLE", source := "STOCK"
        messages := ["Sufficient stock: " ++ toString available_stock ++
          " units available"] }
    else if 0 < available_stock ∧ cfg.allow_partial_ship = true then
      { order_id := line.order_id, line_id := line.line_id, item := line.item
        requested_quantity := line.quantity, requested_date := line.requested_date
        available_quantity := available_stock
        earliest_available_date := some line.requested_date
        status := "PARTIAL", source := "STOCK"
        messages := ["Partial stock: " ++ toString available_stock ++ " of " ++
          toString line.quantity ++ " units"] }
    else
      let relevant_pos := purchase_orders.filter (fun po =>
        po.item == line.item && decide (line.requested_date ≤ po.expected_delivery_date))
      match relevant_pos with
      | [] =>
        { order_id := line.order_id, line_id := line.line_id, item := line.item
          requested_quantity := line.quantity, requested_date := line.requested_date
          available_quantity := 0
          earliest_available_date :=
            some (line.requested_date + cfg.default_lead_time_days)
          status := "BACKORDER", source := "FUTURE_PRODUCTION"
          messages := ["Backordered - estimated " ++
            toString (line.requested_date + cfg.default_lead_time_days)] }
      | p :: ps =>
        let earliest_po := ps.foldl
          (fun best po =>
            if po.expected_delivery_date < best.expected_delivery_date then po else best) p
        let delivery_date := earliest_po.expected_delivery_date + cfg.receiving_buffer_days
        { order_id := line.order_id, line_id := line.line_id, item := line.item
          requested_quantity := line.quantity, requested_date := line.requested_date
          available_quantity := line.quantity
          earliest_available_date := some delivery_date
          status := "AVAILABLE", source := "INBOUND_PO"
          messages := ["Will be available from PO " ++ earliest_po.po_id ++ " on " ++
            toString delivery_date] }

/-- The function `DeliverySchedulerAgent.schedule_delivery` of `Confirm_Order_Process.py`.
`coin` stands for the `random.choice` draw between the two non-priority
carriers and `rand_transit` for the `random.randint` draw from the chosen
carrier's transit range; both are injected.  A `None`
`earliest_available_date` would raise in the source (`None + timedelta`),
modelled by `none`. -/
def schedule_delivery (atp : ATPResult) (line : OrderLine)
    (coin : Bool) (rand_transit : Int) : Option ScheduleResult :=
  let carrier :=
    if line.priority == "PRIORITY" then "FedEx"
    else if line.priority == "NORMAL" then (if coin then "UPS" else "FedEx")
    else (if coin then "USPS" else "DHL")
  let transit_days := rand_transit
  match atp.earliest_available_date with
  | none => none
  | some ship_date =>
    let d0 := ship_date + transit_days
    let adjust := ATPChecker.truthyOpt line.customer_delivery_window_start &&
      decide (5 ≤ d0 % 7)
    let delivery_date := if adjust then d0 + (7 - d0 % 7) else d0
    some
      { order_id := atp.order_id, line_id := atp.line_id, item := atp.item
        quantity := atp.available_quantity
        ship_date := ship_date, delivery_date := delivery_date
        carrier := carrier, transit_days := transit_days
        meets_customer_window := true
        messages := (if adjust then
            ["Adjusted delivery to weekday: " ++ toString delivery_date] else []) ++
          ["Scheduled via " ++ carrier ++ ", transit " ++ toString transit_days ++
            " days"] }

/-- The function `SplitShipmentAgent.evaluate_split` of `Confirm_Order_Process.py`.  The
BACKORDER branch adds a timedelta to `atp.earliest_available_date`, which
raises when that date is `None`; this is modelled by `none`. -/
def evaluate_split (cfg : SystemConfig) (atp : ATPResult)
    (schedule : ScheduleResult) (line : OrderLine) : Option SplitDecision :=
  if atp.status == "AVAILABLE" && atp.available_quantity == atp.requested_quantity then
    some
      { order_id := atp.order_id, line_id := atp.line_id, item := atp.item
        total_quantity := atp.requested_quantity
        shipments := [{ quantity := schedule.quantity, ship_date := schedule.ship_date,
                        delivery_date := schedule.delivery_date,
                        carrier := schedule.carrier, status := "COMPLETE" }]
        split_reason := "NONE"
        messages := ["No split required - full quantity available"] }
  else if atp.status == "PARTIAL" && line.allow_partial_flag then
    let remaining := atp.requested_quantity - atp.available_quantity
    let future_ship_date := schedule.ship_date + cfg.default_lead_time_days
    let future_delivery_date := future_ship_date + schedule.transit_days
    some
      { order_id := atp.order_id, line_id := atp.line_id, item := atp.item
        total_quantity := atp.requested_quantity
        shipments :=
          [{ quantity := atp.available_quantity, ship_date := schedule.ship_date,
             delivery_date := schedule.delivery_date, carrier := schedule.carrier,
             status := "PARTIAL_1" },
           { quantity := remaining, ship_date := future_ship_date,
             delivery_date := future_delivery_date, carrier := schedule.carrier,
             status := "PARTIAL_2" }]
        split_reason := "PARTIAL_AVAILABILITY"
        messages := ["Split into 2 shipments: " ++ toString atp.available_quantity ++
          " + " ++ toString remaining ++ " units"] }
  else if atp.status == "BACKORDER" then
    match atp.earliest_available_date with
    | none => none
    | some e =>
      some
        { order_id := atp.order_id, line_id := atp.line_id, item := atp.item
          total_quantity := atp.requested_quantity
          shipments := [{ quantity := atp.requested_quantity, ship_date := e,
                          delivery_date := e + schedule.transit_days,
                          carrier := schedule.carrier, status := "BACKORDER" }]
          split_reason := "BACKORDER"
          messages := ["Backordered - single shipment on " ++ toString e] }
  else
    some
      { order_id := atp.order_id, line_id := atp.line_id, item := atp.item
        total_quantity := atp.requested_quantity
        shipments := [{ quantity := schedule.quantity, ship_date := schedule.ship_date,
                        delivery_date := schedule.delivery_date,
                        carrier := schedule.carrier, status := "COMPLETE" }]
        split_reason := "NONE"
        messages := [] }

/-- The function `ChannelDispatcherAgent.dispatch_confirmation` of
`Confirm_Order_Process.py`.  `r1` is the outcome of the first simulated send
(`random.random() < 0.9`) and `r2` the outcome of the simulated retry
(`random.random() < 0.7`); `now` is the `datetime.now()` reading used for the
sent timestamp. -/
def dispatch_confirmation (cfg : SystemConfig) (confirmation : Confirmation)
    (line : OrderLine) (now : String) (r1 r2 : Bool) : DispatchResult :=
  let channel := ((cfg.channel_preference.lookup line.priority).getD "EMAIL")
  let z : String × Nat × Bool × List String :=
    if r1 then
      ("SENT", 1, true, ["Successfully sent via " ++ channel])
    else if 1 < cfg.max_retry_attempts then
      (if r2 then
        ("SENT", 2, true, ["Sent via " ++ channel ++ " on retry 2"])
      else
        ("RETRY", 2, false, ["Retry scheduled for " ++ channel]))
    else
      ("FAILED", 1, false, ["Failed after 1 attempts"])
  { confirmation_number := confirmation.confirmation_number
    order_id := confirmation.order_id
    channel := channel
    status := z.1
    attempt_count := z.2.1
    sent_timestamp := if z.1 == "SENT" then some now else none
    receipt_confirmed := z.2.2.1
    messages := z.2.2.2 }

end ConfirmOrder

/-- A Python value as handled by `AuditLoggerAgent._serialize`: strings,
ints, dates, lists, and objects with a `__dict__` of named fields. -/
inductive PyVal where
  | vstr : String → PyVal
  | vint : Int → PyVal
  | vdate : Int → PyVal
  | vlist : List PyVal → PyVal
  | vobj : List (String × PyVal) → PyVal

namespace ConfirmOrder

/-- The method `AuditLoggerAgent._serialize`: dates become their string rendering,
lists and objects are captured recursively by value, plain values are kept. -/
def serialize : PyVal → PyVal
  | .vstr s => .vstr s
  | .vint n => .vint n
  | .vdate d => .vstr (toString d)
  | .vlist l => .vlist (l.attach.map (fun x => serialize x.1))
  | .vobj kvs => .vobj (kvs.attach.map (fun x => (x.1.1, serialize x.1.2)))
decreasing_by
  · have := List.sizeOf_lt_of_mem x.2
    simp only [PyVal.vlist.sizeOf_spec]
    omega
  · have h1 := List.sizeOf_lt_of_mem x.2
    have h2 : sizeOf x.1.2 < sizeOf x.1 := by
      obtain ⟨a, b⟩ := x.1
      simp only [Prod.mk.sizeOf_spec]
      omega
    simp only [PyVal.vobj.sizeOf_spec]
    omega

/-- The `AuditLog` dataclass of `Confirm_Order_Process.py`.  `input_data` and
`output_data` hold the serialized snapshots; `duration_ms` (a float in the
source) is carried as an integer number of microseconds-scale ticks. -/
structure AuditLog where
  log_id : String
  timestamp : String
  order_id : String
  agent : String
  action : String
  input_data : PyVal
  output_data : PyVal
  status : String
  duration_ms : Int
  messages : List String := []

/-- The log id built by `AuditLoggerAgent.log_action`:
`f"LOG-{datetime.now().strftime('%Y%m%d%H%M%S%f')}-{len(self.logs)}"`. -/
def mkLogId (now : String) (n : Nat) : String :=
  "LOG-" ++ now ++ "-" ++ Nat.repr n

/-- The method `AuditLoggerAgent.log_action`.  The mutable `self.logs` list is the
explicit state; `now` is the `datetime.now()` reading of this call rendered
with `strftime('%Y%m%d%H%M%S%f')` (20 characters).  Returns the new state
and the created entry, which the source appends and returns. -/
def log_action (logs : List AuditLog) (now : String) (order_id agent action : String)
    (input_data output_data : PyVal) (status : String) (duration_ms : Int) :
    List AuditLog × AuditLog :=
  let log : AuditLog :=
    { log_id := mkLogId now logs.length
      timestamp := now
      order_id := order_id
      agent := agent
      action := action
      input_data := serialize input_data
      output_data := serialize output_data
      status := status
      duration_ms := duration_ms
      messages := ["Logged " ++ action ++ " by " ++ agent] }
  (logs ++ [log], log)

/-- The method `AuditLoggerAgent.get_audit_trail`: `if order_id:` is Python truthiness,
so `None` and the empty string both return the whole ledger. -/
def get_audit_trail (logs : List AuditLog) (order_id : Option String) :
    List AuditLog :=
  if ATPChecker.truthyOpt order_id then
    logs.filter (fun log => some log.order_id == order_id)
  else logs

/-- The serialization of one `AuditLog` performed by
`AuditLoggerAgent.export_logs` (`self._serialize(log)` over the entry's
`__dict__`; the already-serialized `input_data`/`output_data` dicts are kept
as they are by the `else` branch of `_serialize`). -/
def serializeLog (log : AuditLog) : PyVal :=
  .vobj [("log_id", .vstr log.log_id), ("timestamp", .vstr log.timestamp),
    ("order_id", .vstr log.order_id), ("agent", .vstr log.agent),
    ("action", .vstr log.action), ("input_data", log.input_data),
    ("output_data", log.output_data), ("status", .vstr log.status),
    ("duration_ms", .vint log.duration_ms),
    ("messages", .vlist (log.messages.map PyVal.vstr))]

/-- The method `AuditLoggerAgent.export_logs`: the serialized image of the full ledger
(`[self._serialize(log) for log in self.logs]`), the value written to disk. -/
def export_logs (logs : List AuditLog) : PyVal :=
  .vlist (logs.map serializeLog)

/-- The ledger shape maintained by `log_action`: the entry at position `i`
carries id `mkLogId t i` for its own 20-character timestamp rendering `t`. -/
def LedgerShaped (logs : List AuditLog) : Prop :=
  ∀ i (h : i < logs.length),
    logs[i].log_id = mkLogId logs[i].timestamp i ∧
    logs[i].timestamp.length = 20

end ConfirmOrder

/-- Numeric value of a decimal digit character. -/
def digitVal (c : Char) : Nat := c.toNat - 48

/-- The decimal digit characters of a natural number, most significant
first; this is the fuel-free form of `Nat.toDigitsCore 10`. -/
def natDigits (n : Nat) : List Char :=
  if _h : n / 10 = 0 then [Nat.digitChar (n % 10)]
  else natDigits (n / 10) ++ [Nat.digitChar (n % 10)]
termination_by n
decreasing_by
  have h10 : 10 ≤ n := by
    by_contra hlt
    exact _h (Nat.div_eq_of_lt (by omega))
  exact Nat.div_lt_self (by omega) (by omega)

theorem digitVal_digitChar {m : Nat} (h : m < 10) :
    digitVal (Nat.digitChar m) = m := by
  interval_cases m <;> decide

theorem toDigitsCore_eq_natDigits :
    ∀ (fuel n : Nat) (ds : List Char), n < fuel →
      Nat.toDigitsCore 10 fuel n ds = natDigits n ++ ds := by
  intro fuel
  induction fuel with
  | zero => intro n ds h; omega
  | succ f ih =>
    intro n ds h
    by_cases h0 : n / 10 = 0
    · simp only [Nat.toDigitsCore, h0, if_true]
      rw [natDigits, dif_pos h0]
      rfl
    · have h10 : 10 ≤ n := by
        by_contra hlt
        exact h0 (Nat.div_eq_of_lt (by omega))
      have hlt : n / 10 < f := by
        have := Nat.div_lt_self (show 0 < n by omega) (show 1 < 10 by omega)
        omega
      simp only [Nat.toDigitsCore, h0, if_false]
      rw [ih (n / 10) _ hlt]
      conv_rhs => rw [natDigits]
      rw [dif_neg h0, List.append_assoc]
      rfl

theorem natDigits_foldl (n : Nat) :
    (natDigits n).foldl (fun a c => 10 * a + digitVal c) 0 = n := by
  induction n using Nat.strong_induction_on with
  | _ n ih =>
    rw [natDigits]
    by_cases h0 : n / 10 = 0
    · rw [dif_pos h0]
      have hn : n < 10 := by
        by_contra hge
        have := Nat.div_lt_self (show 0 < n by omega) (show 1 < 10 by omega)
        omega
      simp only [List.foldl_cons, List.foldl_nil, Nat.mul_zero, Nat.zero_add]
      rw [digitVal_digitChar (Nat.mod_lt n (by omega))]
      exact Nat.mod_eq_of_lt hn
    · have h10 : 10 ≤ n := by
        by_contra hlt
        exact h0 (Nat.div_eq_of_lt (by omega))
      rw [dif_neg h0, List.foldl_append,
        ih (n / 10) (Nat.div_lt_self (by omega) (by omega))]
      simp only [List.foldl_cons, List.foldl_nil]
      rw [digitVal_digitChar (Nat.mod_lt n (by omega))]
      omega

theorem natRepr_eq_natDigits (n : Nat) : Nat.repr n = (natDigits n).asString := by
  unfold Nat.repr Nat.toDigits
  rw [toDigitsCore_eq_natDigits (n + 1) n [] (Nat.lt_succ_self n), List.append_nil]

theorem natRepr_injective {m n : Nat} (h : Nat.repr m = Nat.repr n) : m = n := by
  rw [natRepr_eq_natDigits, natRepr_eq_natDigits] at h
  have hd : natDigits m = natDigits n := congrArg String.data h
  have := congrArg (List.foldl (fun a c => 10 * a + digitVal c) 0) hd
  rwa [natDigits_foldl, natDigits_foldl] at this

namespace ConfirmOrder

theorem mkLogId_inj {t1 t2 : String} {m n : Nat} (hlen : t1.length = t2.length)
    (h : mkLogId t1 m = mkLogId t2 n) : t1 = t2 ∧ m = n := by
  unfold mkLogId at h
  have hdata := congrArg String.data h
  simp only [String.data_append, List.append_assoc] at hdata
  have hlen4 : ("LOG-".data).length = ("LOG-".data).length := rfl
  obtain ⟨-, h2⟩ := List.append_inj hdata hlen4
  have hlen2 : t1.data.length = t2.data.length := hlen
  obtain ⟨ht, h3⟩ := List.append_inj h2 hlen2
  have h4 : (Nat.repr m).data = (Nat.repr n).data := by
    have := List.append_inj h3 (rfl : ("-".data).length = ("-".data).length)
    exact this.2
  exact ⟨String.ext ht, natRepr_injective (String.ext h4)⟩

end ConfirmOrder

namespace ATPChecker

/-- Sum of the quantities of the first `k` purchase orders of a list. -/
def poPrefixQty (l : List PurchaseOrder) (k : Nat) : Int :=
  ((l.take k).map (fun po => po.quantity)).sum

theorem poPrefixQty_one (p : PurchaseOrder) (l : List PurchaseOrder) :
    poPrefixQty (p :: l) 1 = p.quantity := by
  simp [poPrefixQty]

theorem poPrefixQty_cons_succ (p : PurchaseOrder) (l : List PurchaseOrder) (k : Nat) :
    poPrefixQty (p :: l) (k + 1) = p.quantity + poPrefixQty l k := by
  simp [poPrefixQty, List.take_succ_cons]

theorem findTriggeringPO_eq_none (qty : Int) :
    ∀ (l : List PurchaseOrder) (acc : Int),
      (∀ k, k < l.length → acc + poPrefixQty l (k + 1) < qty) →
      findTriggeringPO qty acc l = none := by
  intro l
  induction l with
  | nil => intro acc _; rfl
  | cons p rest ih =>
    intro acc h
    have h0 := h 0 (by simp)
    rw [poPrefixQty_one] at h0
    rw [findTriggeringPO]
    rw [if_neg (by exact not_le.mpr h0)]
    apply ih (acc + p.quantity)
    intro k hk
    have hks := h (k + 1) (by simpa using Nat.succ_lt_succ hk)
    rw [poPrefixQty_cons_succ] at hks
    linarith

theorem findTriggeringPO_eq_some (qty : Int) :
    ∀ (l : List PurchaseOrder) (acc : Int) (i : Nat) (hi : i < l.length),
      qty ≤ acc + poPrefixQty l (i + 1) →
      (∀ k, k < i → acc + poPrefixQty l (k + 1) < qty) →
      findTriggeringPO qty acc l = some (l.get ⟨i, hi⟩) := by
  intro l
  induction l with
  | nil => intro acc i hi; exact absurd hi (by simp)
  | cons p rest ih =>
    intro acc i hi hreach hmin
    rw [findTriggeringPO]
    by_cases hc : qty ≤ acc + p.quantity
    · rw [if_pos hc]
      cases i with
      | zero => rfl
      | succ j =>
        have := hmin 0 (Nat.succ_pos j)
        rw [poPrefixQty_one] at this
        exact absurd hc (not_le.mpr this)
    · rw [if_neg hc]
      cases i with
      | zero =>
        rw [poPrefixQty_one] at hreach
        exact absurd hreach hc
      | succ j =>
        have hj : j < rest.length := by simpa using hi
        rw [show ((p :: rest).get ⟨j + 1, hi⟩) = rest.get ⟨j, hj⟩ from rfl]
        apply ih (acc + p.quantity) j hj
        · rw [poPrefixQty_cons_succ] at hreach
          linarith
        · intro k hk
          have := hmin (k + 1) (Nat.succ_lt_succ hk)
          rw [poPrefixQty_cons_succ] at this
          linarith

theorem relevantPOs_sorted (cfg : ATPConfig) (line : OrderLine)
    (purchase_orders : List PurchaseOrder) :
    (relevantPOs cfg line purchase_orders).Pairwise
      (fun a b => a.expected_delivery_date ≤ b.expected_delivery_date) := by
  have hs := @List.sorted_mergeSort PurchaseOrder
    (fun a b => decide (a.expected_delivery_date ≤ b.expected_delivery_date))
    (fun a b c hab hbc => by
      simp only [decide_eq_true_eq] at *
      exact le_trans hab hbc)
    (fun a b => by
      simp only [Bool.or_eq_true, decide_eq_true_eq]
      exact le_total _ _)
  exact (hs _).imp (fun h => by simpa using h)

end ATPChecker

/-- C2: for every order line whose available stock (sum of on-hand minus sum
of safety stock over all inventory rows matching the item, and the ship-from
location when specified, floored at 0) is at least the requested quantity,
`ATPEngine.calculate_atp` returns AVAILABLE/STOCK with the full requested
quantity and earliest date
`max(requestedDate, today + receivingBuffer + qualityBuffer + transitDefault)`. -/
theorem claim_c2_stock_available (cfg : ATPChecker.ATPConfig) (today : Int)
    (line : ATPChecker.OrderLine) (inventory : List ATPChecker.InventorySnapshot)
    (purchase_orders : List ATPChecker.PurchaseOrder)
    (h : line.quantity ≤ ATPChecker.availableStock line inventory) :
    (ATPChecker.calculate_atp cfg today line inventory purchase_orders).status =
      "AVAILABLE" ∧
    (ATPChecker.calculate_atp cfg today line inventory purchase_orders).source =
      "STOCK" ∧
    (ATPChecker.calculate_atp cfg today line inventory purchase_orders).available_quantity =
      (ATPChecker.calculate_atp cfg today line inventory purchase_orders).requested_quantity ∧
    (ATPChecker.calculate_atp cfg today line inventory purchase_orders).available_quantity =
      line.quantity ∧
    (ATPChecker.calculate_atp cfg today line inventory purchase_orders).earliest_available_date =
      some (max line.requested_date (today + (cfg.receiving_buffer_days +
        cfg.quality_buffer_days + cfg.transit_days_default))) := by
  simp only [ATPChecker.calculate_atp]
  rw [if_pos h]
  exact ⟨rfl, rfl, rfl, rfl, rfl⟩

/-- Witness for C2: the spec example (on-hand 100, safety stock 20,
requested 50). -/
theorem claim_c2_stock_available_witness :
    (ATPChecker.calculate_atp .base 100
      { order_id := "SO-1001", line_id := "000", item := "WIDGET-A", quantity := 50,
        requested_date := 120 }
      [{ item := "WIDGET-A", location := "MAIN", on_hand_qty := 100,
         safety_stock_qty := 20, last_updated := "t0" }] []).status = "AVAILABLE" ∧
    (ATPChecker.calculate_atp .base 100
      { order_id := "SO-1001", line_id := "000", item := "WIDGET-A", quantity := 50,
        requested_date := 120 }
      [{ item := "WIDGET-A", location := "MAIN", on_hand_qty := 100,
         safety_stock_qty := 20, last_updated := "t0" }] []).source = "STOCK" ∧
    (ATPChecker.calculate_atp .base 100
      { order_id := "SO-1001", line_id := "000", item := "WIDGET-A", quantity := 50,
        requested_date := 120 }
      [{ item := "WIDGET-A", location := "MAIN", on_hand_qty := 100,
         safety_stock_qty := 20, last_updated := "t0" }] []).available_quantity =
      (ATPChecker.calculate_atp .base 100
        { order_id := "SO-1001", line_id := "000", item := "WIDGET-A", quantity := 50,
          requested_date := 120 }
        [{ item := "WIDGET-A", location := "MAIN", on_hand_qty := 100,
           safety_stock_qty := 20, last_updated := "t0" }] []).requested_quantity ∧
    (ATPChecker.calculate_atp .base 100
      { order_id := "SO-1001", line_id := "000", item := "WIDGET-A", quantity := 50,
        requested_date := 120 }
      [{ item := "WIDGET-A", location := "MAIN", on_hand_qty := 100,
         safety_stock_qty := 20, last_updated := "t0" }] []).available_quantity = 50 ∧
    (ATPChecker.calculate_atp .base 100
      { order_id := "SO-1001", line_id := "000", item := "WIDGET-A", quantity := 50,
        requested_date := 120 }
      [{ item := "WIDGET-A", location := "MAIN", on_hand_qty := 100,
         safety_stock_qty := 20, last_updated := "t0" }] []).earliest_available_date =
      some (max 120 (100 + (1 + 1 + 2))) :=
  claim_c2_stock_available .base 100 _ _ _ (by decide)

/-- C3: whenever the computed available stock is strictly between 0 and the
requested quantity and the policy allows partial shipping, both availability
computations return PARTIAL/STOCK with `available_quantity` equal to the
available stock (first conjunct: the `ATP_Checker_Agent.py` engine over all
matching rows; second conjunct: the `Confirm_Order_Process.py` checker over
its first matching row). -/
theorem claim_c3_partial_stock :
    (∀ (cfg : ATPChecker.ATPConfig) (today : Int) (line : ATPChecker.OrderLine)
      (inventory : List ATPChecker.InventorySnapshot)
      (purchase_orders : List ATPChecker.PurchaseOrder),
      0 < ATPChecker.availableStock line inventory →
      ATPChecker.availableStock line inventory < line.quantity →
      cfg.allow_partial_ship = true →
      (ATPChecker.calculate_atp cfg today line inventory purchase_orders).status =
        "PARTIAL" ∧
      (ATPChecker.calculate_atp cfg today line inventory purchase_orders).source =
        "STOCK" ∧
      (ATPChecker.calculate_atp cfg today line inventory purchase_orders).available_quantity =
        ATPChecker.availableStock line inventory) ∧
    (∀ (cfg : ConfirmOrder.SystemConfig) (line : ConfirmOrder.OrderLine)
      (inventory : List ConfirmOrder.InventorySnapshot)
      (purchase_orders : List ConfirmOrder.PurchaseOrder)
      (row : ConfirmOrder.InventorySnapshot),
      inventory.find? (fun i => i.item == line.item) = some row →
      0 < max 0 (row.on_hand_qty - row.safety_stock_qty) →
      max 0 (row.on_hand_qty - row.safety_stock_qty) < line.quantity →
      cfg.allow_partial_ship = true →
      (ConfirmOrder.calculate_atp cfg line inventory purchase_orders).status =
        "PARTIAL" ∧
      (ConfirmOrder.calculate_atp cfg line inventory purchase_orders).source =
        "STOCK" ∧
      (ConfirmOrder.calculate_atp cfg line inventory purchase_orders).available_quantity =
        max 0 (row.on_hand_qty - row.safety_stock_qty)) := by
  constructor
  · intro cfg today line inventory purchase_orders h0 hlt hcfg
    simp only [ATPChecker.calculate_atp]
    rw [if_neg (not_le.mpr hlt), if_pos ⟨hcfg, h0⟩]
    exact ⟨rfl, rfl, rfl⟩
  · intro cfg line inventory purchase_orders row hfind h0 hlt hcfg
    simp only [ConfirmOrder.calculate_atp, hfind]
    rw [if_neg (not_le.mpr hlt), if_pos ⟨h0, hcfg⟩]
    exact ⟨rfl, rfl, rfl⟩

/-- Witness for C3: the spec example (on-hand 100, safety stock 20, available
80, requested 120, partial allowed), run through both engines. -/
theorem claim_c3_partial_stock_witness :
    ((ATPChecker.calculate_atp .base 100
      { order_id := "SO-1001", line_id := "000", item := "WIDGET-A", quantity := 120,
        requested_date := 120 }
      [{ item := "WIDGET-A", location := "MAIN", on_hand_qty := 100,
         safety_stock_qty := 20, last_updated := "t0" }] []).status = "PARTIAL" ∧
    (ATPChecker.calculate_atp .base 100
      { order_id := "SO-1001", line_id := "000", item := "WIDGET-A", quantity := 120,
        requested_date := 120 }
      [{ item := "WIDGET-A", location := "MAIN", on_hand_qty := 100,
         safety_stock_qty := 20, last_updated := "t0" }] []).source = "STOCK" ∧
    (ATPChecker.calculate_atp .base 100
      { order_id := "SO-1001", line_id := "000", item := "WIDGET-A", quantity := 120,
        requested_date := 120 }
      [{ item := "WIDGET-A", location := "MAIN", on_hand_qty := 100,
         safety_stock_qty := 20, last_updated := "t0" }] []).available_quantity =
      ATPChecker.availableStock
        { order_id := "SO-1001", line_id := "000", item := "WIDGET-A", quantity := 120,
          requested_date := 120 }
        [{ item := "WIDGET-A", location := "MAIN", on_hand_qty := 100,
           safety_stock_qty := 20, last_updated := "t0" }]) ∧
    ((ConfirmOrder.calculate_atp .base
      { order_id := "ORD-00001", line_id := "LINE-00001", item := "WIDGET-001",
        quantity := 120, requested_date := 120 }
      [{ item := "WIDGET-001", location := "WAREHOUSE_01", on_hand_qty := 100,
         safety_stock_qty := 20, last_updated := "t0" }] []).status = "PARTIAL" ∧
    (ConfirmOrder.calculate_atp .base
      { order_id := "ORD-00001", line_id := "LINE-00001", item := "WIDGET-001",
        quantity := 120, requested_date := 120 }
      [{ item := "WIDGET-001", location := "WAREHOUSE_01", on_hand_qty := 100,
         safety_stock_qty := 20, last_updated := "t0" }] []).source = "STOCK" ∧
    (ConfirmOrder.calculate_atp .base
      { order_id := "ORD-00001", line_id := "LINE-00001", item := "WIDGET-001",
        quantity := 120, requested_date := 120 }
      [{ item := "WIDGET-001", location := "WAREHOUSE_01", on_hand_qty := 100,
         safety_stock_qty := 20, last_updated := "t0" }] []).available_quantity =
      max 0 ((100 : Int) - 20)) :=
  ⟨claim_c3_partial_stock.1 .base 100 _ _ _ (by decide) (by decide) rfl,
   claim_c3_partial_stock.2 .base _ _ _
     { item := "WIDGET-001", location := "WAREHOUSE_01", on_hand_qty := 100,
       safety_stock_qty := 20, last_updated := "t0" }
     (by decide) (by decide) (by decide) rfl⟩

/-- C8: every `ATPResult` produced by either availability computation has
`available_quantity ≤ requested_quantity` and a set (non-`None`)
`earliest_available_date`; for the `Confirm_Order_Process.py` checker the
line's quantity is assumed non-negative, as ingestion validation rejects
non-positive quantities. -/
theorem claim_c8_result_invariants :
    (∀ (cfg : ATPChecker.ATPConfig) (today : Int) (line : ATPChecker.OrderLine)
      (inventory : List ATPChecker.InventorySnapshot)
      (purchase_orders : List ATPChecker.PurchaseOrder),
      (ATPChecker.calculate_atp cfg today line inventory purchase_orders).available_quantity ≤
        (ATPChecker.calculate_atp cfg today line inventory purchase_orders).requested_quantity ∧
      (ATPChecker.calculate_atp cfg today line inventory
        purchase_orders).earliest_available_date.isSome = true) ∧
    (∀ (cfg : ConfirmOrder.SystemConfig) (line : ConfirmOrder.OrderLine)
      (inventory : List ConfirmOrder.InventorySnapshot)
      (purchase_orders : List ConfirmOrder.PurchaseOrder),
      0 ≤ line.quantity →
      (ConfirmOrder.calculate_atp cfg line inventory purchase_orders).available_quantity ≤
        (ConfirmOrder.calculate_atp cfg line inventory purchase_orders).requested_quantity ∧
      (ConfirmOrder.calculate_atp cfg line inventory
        purchase_orders).earliest_available_date.isSome = true) := by
  constructor
  · intro cfg today line inventory purchase_orders
    simp only [ATPChecker.calculate_atp]
    split
    · exact ⟨le_refl _, rfl⟩
    · split
      · next h _ => exact ⟨le_of_not_le h, rfl⟩
      · split
        · exact ⟨le_refl _, rfl⟩
        · exact ⟨le_refl _, rfl⟩
  · intro cfg line inventory purchase_orders hq
    simp only [ConfirmOrder.calculate_atp]
    split
    · exact ⟨hq, rfl⟩
    · split
      · exact ⟨le_refl _, rfl⟩
      · split
        · next h _ => exact ⟨le_of_not_le h, rfl⟩
        · split
          · exact ⟨hq, rfl⟩
          · exact ⟨le_refl _, rfl⟩

/-- Witness for C8 at concrete inputs (both computations). -/
theorem claim_c8_result_invariants_witness :
    ((ATPChecker.calculate_atp .base 100
      { order_id := "SO-1001", line_id := "000", item := "WIDGET-A", quantity := 7,
        requested_date := 110 } [] []).available_quantity ≤
      (ATPChecker.calculate_atp .base 100
        { order_id := "SO-1001", line_id := "000", item := "WIDGET-A", quantity := 7,
          requested_date := 110 } [] []).requested_quantity ∧
    (ATPChecker.calculate_atp .base 100
      { order_id := "SO-1001", line_id := "000", item := "WIDGET-A", quantity := 7,
        requested_date := 110 } [] []).earliest_available_date.isSome = true) ∧
    ((ConfirmOrder.calculate_atp .base
      { order_id := "ORD-00001", line_id := "LINE-00001", item := "WIDGET-001",
        quantity := 7, requested_date := 110 } [] []).available_quantity ≤
      (ConfirmOrder.calculate_atp .base
        { order_id := "ORD-00001", line_id := "LINE-00001", item := "WIDGET-001",
          quantity := 7, requested_date := 110 } [] []).requested_quantity ∧
    (ConfirmOrder.calculate_atp .base
      { order_id := "ORD-00001", line_id := "LINE-00001", item := "WIDGET-001",
        quantity := 7, requested_date := 110 } [] []).earliest_available_date.isSome =
      true) :=
  ⟨claim_c8_result_invariants.1 .base 100 _ [] [],
   claim_c8_result_invariants.2 .base _ [] [] (by decide)⟩

/-- C10: when `ATPEngine.calculate_atp` falls through to the final
FUTURE_PRODUCTION branch (stock short of the request, partial path not
taken, and no prefix of the sorted purchase orders accumulates to the
request), the result is BACKORDER with `available_quantity` equal to the
FULL requested quantity (not 0) and earliest date
`today + defaultLeadTime + receivingBuffer + qualityBuffer + transitDefault`. -/
theorem claim_c10_future_production (cfg : ATPChecker.ATPConfig) (today : Int)
    (line : ATPChecker.OrderLine) (inventory : List ATPChecker.InventorySnapshot)
    (purchase_orders : List ATPChecker.PurchaseOrder)
    (h1 : ATPChecker.availableStock line inventory < line.quantity)
    (h2 : ¬(cfg.allow_partial_ship = true ∧ 0 < ATPChecker.availableStock line inventory))
    (h3 : ∀ k, k < (ATPChecker.relevantPOs cfg line purchase_orders).length →
      ATPChecker.availableStock line inventory +
        ATPChecker.poPrefixQty (ATPChecker.relevantPOs cfg line purchase_orders) (k + 1) <
        line.quantity) :
    (ATPChecker.calculate_atp cfg today line inventory purchase_orders).status =
      "BACKORDER" ∧
    (ATPChecker.calculate_atp cfg today line inventory purchase_orders).source =
      "FUTURE_PRODUCTION" ∧
    (ATPChecker.calculate_atp cfg today line inventory purchase_orders).available_quantity =
      (ATPChecker.calculate_atp cfg today line inventory purchase_orders).requested_quantity ∧
    (ATPChecker.calculate_atp cfg today line inventory purchase_orders).available_quantity =
      line.quantity ∧
    (ATPChecker.calculate_atp cfg today line inventory purchase_orders).earliest_available_date =
      some (today + (cfg.default_lead_time_days + (cfg.receiving_buffer_days +
        cfg.quality_buffer_days + cfg.transit_days_default))) := by
  simp only [ATPChecker.calculate_atp]
  rw [if_neg (not_le.mpr h1), if_neg h2,
    ATPChecker.findTriggeringPO_eq_none line.quantity _ _ h3]
  exact ⟨rfl, rfl, rfl, rfl, rfl⟩

/-- Witness for C10: no inventory, no purchase orders, requested 5. -/
theorem claim_c10_future_production_witness :
    (ATPChecker.calculate_atp .base 100
      { order_id := "SO-1001", line_id := "000", item := "WIDGET-A", quantity := 5,
        requested_date := 110 } [] []).status = "BACKORDER" ∧
    (ATPChecker.calculate_atp .base 100
      { order_id := "SO-1001", line_id := "000", item := "WIDGET-A", quantity := 5,
        requested_date := 110 } [] []).source = "FUTURE_PRODUCTION" ∧
    (ATPChecker.calculate_atp .base 100
      { order_id := "SO-1001", line_id := "000", item := "WIDGET-A", quantity := 5,
        requested_date := 110 } [] []).available_quantity =
      (ATPChecker.calculate_atp .base 100
        { order_id := "SO-1001", line_id := "000", item := "WIDGET-A", quantity := 5,
          requested_date := 110 } [] []).requested_quantity ∧
    (ATPChecker.calculate_atp .base 100
      { order_id := "SO-1001", line_id := "000", item := "WIDGET-A", quantity := 5,
        requested_date := 110 } [] []).available_quantity = 5 ∧
    (ATPChecker.calculate_atp .base 100
      { order_id := "SO-1001", line_id := "000", item := "WIDGET-A", quantity := 5,
        requested_date := 110 } [] []).earliest_available_date =
      some (100 + (14 + (1 + 1 + 2))) :=
  claim_c10_future_production .base 100 _ [] [] (by decide) (by decide)
    (by intro k hk; simp [ATPChecker.relevantPOs] at hk)

/-- The accumulation loop triggers exactly on `po` when it is the first
element (after the prefix `pre`) at which the running total reaches the
requested quantity. -/
theorem findTriggeringPO_eq_some_split (qty : Int) :
    ∀ (pre : List ATPChecker.PurchaseOrder) (acc : Int)
      (po : ATPChecker.PurchaseOrder) (suf : List ATPChecker.PurchaseOrder),
      qty ≤ acc + ((pre.map (fun p => p.quantity)).sum + po.quantity) →
      (∀ k, k < pre.length → acc + ATPChecker.poPrefixQty pre (k + 1) < qty) →
      ATPChecker.findTriggeringPO qty acc (pre ++ po :: suf) = some po := by
  intro pre
  induction pre with
  | nil =>
    intro acc po suf hreach _
    rw [List.nil_append, ATPChecker.findTriggeringPO]
    rw [if_pos (by simpa using hreach)]
  | cons p rest ih =>
    intro acc po suf hreach hmin
    have h0 := hmin 0 (Nat.succ_pos rest.length)
    rw [ATPChecker.poPrefixQty_one] at h0
    rw [List.cons_append, ATPChecker.findTriggeringPO]
    rw [if_neg (not_le.mpr h0)]
    apply ih (acc + p.quantity) po suf
    · simp only [List.map_cons, List.sum_cons] at hreach
      linarith
    · intro k hk
      have := hmin (k + 1) (Nat.succ_lt_succ hk)
      rw [ATPChecker.poPrefixQty_cons_succ] at this
      linarith

/-- C4: when stock cannot fulfill a line and the partial path does not apply,
`ATPEngine.calculate_atp` accumulates the available stock plus the matching
purchase orders' quantities in ascending delivery-date order (the sorted
`relevantPOs` list, whose ascending order is the final conjunct); writing
that list as `pre ++ po :: suf` where `po` is the first entry at which the
running total reaches the request, the result is built from `po`: earliest
date `max(requestedDate, poDate + buffers)`, status AVAILABLE exactly when
the buffered PO date is at most the requested date and BACKORDER otherwise,
and source INBOUND_PO. -/
theorem claim_c4_inbound_po (cfg : ATPChecker.ATPConfig) (today : Int)
    (line : ATPChecker.OrderLine) (inventory : List ATPChecker.InventorySnapshot)
    (purchase_orders : List ATPChecker.PurchaseOrder)
    (pre suf : List ATPChecker.PurchaseOrder) (po : ATPChecker.PurchaseOrder)
    (hsplit : ATPChecker.relevantPOs cfg line purchase_orders = pre ++ po :: suf)
    (h1 : ATPChecker.availableStock line inventory < line.quantity)
    (h2 : ¬(cfg.allow_partial_ship = true ∧ 0 < ATPChecker.availableStock line inventory))
    (hreach : line.quantity ≤ ATPChecker.availableStock line inventory +
      ((pre.map (fun p => p.quantity)).sum + po.quantity))
    (hmin : ∀ k, k < pre.length → ATPChecker.availableStock line inventory +
      ATPChecker.poPrefixQty pre (k + 1) < line.quantity) :
    (ATPChecker.calculate_atp cfg today line inventory purchase_orders).source =
      "INBOUND_PO" ∧
    (ATPChecker.calculate_atp cfg today line inventory purchase_orders).earliest_available_date =
      some (max line.requested_date (po.expected_delivery_date +
        (cfg.receiving_buffer_days + cfg.quality_buffer_days + cfg.transit_days_default))) ∧
    (ATPChecker.calculate_atp cfg today line inventory purchase_orders).status =
      (if po.expected_delivery_date +
          (cfg.receiving_buffer_days + cfg.quality_buffer_days + cfg.transit_days_default) ≤
          line.requested_date
        then "AVAILABLE" else "BACKORDER") ∧
    (ATPChecker.calculate_atp cfg today line inventory purchase_orders).available_quantity =
      line.quantity ∧
    (ATPChecker.relevantPOs cfg line purchase_orders).Pairwise
      (fun a b => a.expected_delivery_date ≤ b.expected_delivery_date) := by
  simp only [ATPChecker.calculate_atp]
  rw [if_neg (not_le.mpr h1), if_neg h2, hsplit,
    findTriggeringPO_eq_some_split line.quantity pre _ po suf hreach hmin]
  exact ⟨rfl, rfl, rfl, rfl,
    hsplit ▸ ATPChecker.relevantPOs_sorted cfg line purchase_orders⟩

/-- Witness for C4: the spec example (available 0, one confirmed PO of 200
arriving on day 110, requested 150, buffers 4 days, requested date 120). -/
theorem claim_c4_inbound_po_witness :
    (ATPChecker.calculate_atp .base 100
      { order_id := "SO-1001", line_id := "000", item := "WIDGET-A", quantity := 150,
        requested_date := 120 } []
      [{ po_id := "PO-1001", item := "WIDGET-A", quantity := 200,
         expected_delivery_date := 110, location := "MAIN", confirmed := true }]).source =
      "INBOUND_PO" ∧
    (ATPChecker.calculate_atp .base 100
      { order_id := "SO-1001", line_id := "000", item := "WIDGET-A", quantity := 150,
        requested_date := 120 } []
      [{ po_id := "PO-1001", item := "WIDGET-A", quantity := 200,
         expected_delivery_date := 110, location := "MAIN",
         confirmed := true }]).earliest_available_date =
      some (max 120 (110 + (1 + 1 + 2))) ∧
    (ATPChecker.calculate_atp .base 100
      { order_id := "SO-1001", line_id := "000", item := "WIDGET-A", quantity := 150,
        requested_date := 120 } []
      [{ po_id := "PO-1001", item := "WIDGET-A", quantity := 200,
         expected_delivery_date := 110, location := "MAIN", confirmed := true }]).status =
      (if (110 : Int) + (1 + 1 + 2) ≤ 120 then "AVAILABLE" else "BACKORDER") ∧
    (ATPChecker.calculate_atp .base 100
      { order_id := "SO-1001", line_id := "000", item := "WIDGET-A", quantity := 150,
        requested_date := 120 } []
      [{ po_id := "PO-1001", item := "WIDGET-A", quantity := 200,
         expected_delivery_date := 110, location := "MAIN",
         confirmed := true }]).available_quantity = 150 ∧
    (ATPChecker.relevantPOs .base
      { order_id := "SO-1001", line_id := "000", item := "WIDGET-A", quantity := 150,
        requested_date := 120 }
      [{ po_id := "PO-1001", item := "WIDGET-A", quantity := 200,
         expected_delivery_date := 110, location := "MAIN",
         confirmed := true }]).Pairwise
      (fun a b => a.expected_delivery_date ≤ b.expected_delivery_date) :=
  claim_c4_inbound_po .base 100
    { order_id := "SO-1001", line_id := "000", item := "WIDGET-A", quantity := 150,
      requested_date := 120 } []
    [{ po_id := "PO-1001", item := "WIDGET-A", quantity := 200,
       expected_delivery_date := 110, location := "MAIN", confirmed := true }]
    [] []
    { po_id := "PO-1001", item := "WIDGET-A", quantity := 200,
      expected_delivery_date := 110, location := "MAIN", confirmed := true }
    (by simp [ATPChecker.relevantPOs, ATPChecker.ATPConfig.base, ATPChecker.truthyOpt,
      List.filter]) (by decide) (by decide) (by decide)
    (fun k hk => absurd hk (Nat.not_lt_zero k))

/-- Counterexample to C1 as stated: a PARTIAL ATPResult (3 of 10 available)
on a line with `allow_partial = False` reaches the fallback branch of
`evaluate_split`, which emits a single shipment of the SCHEDULED quantity
(3, the available stock carried by the pipeline's own schedule), so the
shipment quantities sum to 3 while `total_quantity` is the requested 10. -/
theorem claim_c1_counterexample :
    ConfirmOrder.schedule_delivery
      { order_id := "ORD-00001", line_id := "LINE-00001", item := "WIDGET-001",
        requested_quantity := 10, requested_date := 120, available_quantity := 3,
        earliest_available_date := some 120, status := "PARTIAL", source := "STOCK" }
      { order_id := "ORD-00001", line_id := "LINE-00001", item := "WIDGET-001",
        quantity := 10, requested_date := 120, allow_partial_flag := false }
      false 2 =
      some
        { order_id := "ORD-00001", line_id := "LINE-00001", item := "WIDGET-001",
          quantity := 3, ship_date := 120, delivery_date := 122, carrier := "FedEx",
          transit_days := 2, meets_customer_window := true,
          messages := ["Scheduled via FedEx, transit 2 days"] } ∧
    (ConfirmOrder.evaluate_split .base
      { order_id := "ORD-00001", line_id := "LINE-00001", item := "WIDGET-001",
        requested_quantity := 10, requested_date := 120, available_quantity := 3,
        earliest_available_date := some 120, status := "PARTIAL", source := "STOCK" }
      { order_id := "ORD-00001", line_id := "LINE-00001", item := "WIDGET-001",
        quantity := 3, ship_date := 120, delivery_date := 122, carrier := "FedEx",
        transit_days := 2, meets_customer_window := true,
        messages := ["Scheduled via FedEx, transit 2 days"] }
      { order_id := "ORD-00001", line_id := "LINE-00001", item := "WIDGET-001",
        quantity := 10, requested_date := 120, allow_partial_flag := false }).map
        (fun d => ((d.shipments.map (fun s => s.quantity)).sum, d.total_quantity)) =
      some ((3 : Int), (10 : Int)) ∧
    (3 : Int) ≠ 10 := by
  refine ⟨by decide, by decide, by decide⟩

/-- C1 amended: for every SplitDecision built by `evaluate_split` from a
schedule carrying the ATP's available quantity (as `schedule_delivery`
produces), the shipment quantities sum to `total_quantity`, which equals the
line's requested quantity, in the three explicit branches — AVAILABLE with
available = requested, PARTIAL on a line that allows partial shipping, and
BACKORDER.  (The fallback branch, e.g. PARTIAL with `allow_partial = False`,
instead ships only the scheduled quantity; see the counterexample.) -/
theorem claim_c1_split_sum (cfg : ConfirmOrder.SystemConfig)
    (atp : ConfirmOrder.ATPResult) (schedule : ConfirmOrder.ScheduleResult)
    (line : ConfirmOrder.OrderLine) (d : ConfirmOrder.SplitDecision)
    (hq : schedule.quantity = atp.available_quantity)
    (hreq : atp.requested_quantity = line.quantity)
    (hbr : (atp.status = "AVAILABLE" ∧ atp.available_quantity = atp.requested_quantity) ∨
      (atp.status = "PARTIAL" ∧ line.allow_partial_flag = true) ∨
      atp.status = "BACKORDER")
    (hd : ConfirmOrder.evaluate_split cfg atp schedule line = some d) :
    (d.shipments.map (fun s => s.quantity)).sum = d.total_quantity ∧
    d.total_quantity = line.quantity := by
  rcases hbr with ⟨hs, he⟩ | ⟨hs, hp⟩ | hs
  · simp [ConfirmOrder.evaluate_split, hs, he] at hd
    subst hd
    simp [hq, he, hreq]
  · simp [ConfirmOrder.evaluate_split, hs, hp] at hd
    subst hd
    refine ⟨?_, hreq⟩
    simp
  · cases hE : atp.earliest_available_date with
    | none =>
      rw [ConfirmOrder.evaluate_split] at hd
      simp [hs, hE] at hd
    | some e =>
      simp [ConfirmOrder.evaluate_split, hs, hE] at hd
      subst hd
      simp [hreq]

/-- Witness for the amended C1: the PARTIAL branch on a line that allows
partial shipping (3 of 10 available) sums to the requested 10. -/
theorem claim_c1_split_sum_witness :
    (ConfirmOrder.evaluate_split .base
      { order_id := "ORD-00001", line_id := "LINE-00001", item := "WIDGET-001",
        requested_quantity := 10, requested_date := 120, available_quantity := 3,
        earliest_available_date := some 120, status := "PARTIAL", source := "STOCK" }
      { order_id := "ORD-00001", line_id := "LINE-00001", item := "WIDGET-001",
        quantity := 3, ship_date := 120, delivery_date := 122, carrier := "FedEx",
        transit_days := 2, meets_customer_window := true,
        messages := ["Scheduled via FedEx, transit 2 days"] }
      { order_id := "ORD-00001", line_id := "LINE-00001", item := "WIDGET-001",
        quantity := 10, requested_date := 120, allow_partial_flag := true }).map
        (fun d => (d.shipments.map (fun s => s.quantity)).sum) =
      (ConfirmOrder.evaluate_split .base
        { order_id := "ORD-00001", line_id := "LINE-00001", item := "WIDGET-001",
          requested_quantity := 10, requested_date := 120, available_quantity := 3,
          earliest_available_date := some 120, status := "PARTIAL", source := "STOCK" }
        { order_id := "ORD-00001", line_id := "LINE-00001", item := "WIDGET-001",
          quantity := 3, ship_date := 120, delivery_date := 122, carrier := "FedEx",
          transit_days := 2, meets_customer_window := true,
          messages := ["Scheduled via FedEx, transit 2 days"] }
        { order_id := "ORD-00001", line_id := "LINE-00001", item := "WIDGET-001",
          quantity := 10, requested_date := 120, allow_partial_flag := true }).map
        (fun d => d.total_quantity) := by
  obtain ⟨d, hd⟩ : ∃ d, ConfirmOrder.evaluate_split .base
      { order_id := "ORD-00001", line_id := "LINE-00001", item := "WIDGET-001",
        requested_quantity := 10, requested_date := 120, available_quantity := 3,
        earliest_available_date := some 120, status := "PARTIAL", source := "STOCK" }
      { order_id := "ORD-00001", line_id := "LINE-00001", item := "WIDGET-001",
        quantity := 3, ship_date := 120, delivery_date := 122, carrier := "FedEx",
        transit_days := 2, meets_customer_window := true,
        messages := ["Scheduled via FedEx, transit 2 days"] }
      { order_id := "ORD-00001", line_id := "LINE-00001", item := "WIDGET-001",
        quantity := 10, requested_date := 120, allow_partial_flag := true } = some d :=
    ⟨_, rfl⟩
  have h := claim_c1_split_sum .base _ _ _ d rfl rfl (Or.inr (Or.inl ⟨rfl, rfl⟩)) hd
  rw [hd]
  exact congrArg some h.1

/-- Counterexample to C7 as stated: `evaluate_split` never consults
`min_split_quantity`; a PARTIAL line (2 of 10 available, partial allowed)
yields two shipments of 2 and 8 units, the first below the configured
minimum of 5, with no folding. -/
theorem claim_c7_counterexample :
    (ConfirmOrder.evaluate_split .base
      { order_id := "ORD-00002", line_id := "LINE-00002", item := "WIDGET-002",
        requested_quantity := 10, requested_date := 120, available_quantity := 2,
        earliest_available_date := some 120, status := "PARTIAL", source := "STOCK" }
      { order_id := "ORD-00002", line_id := "LINE-00002", item := "WIDGET-002",
        quantity := 2, ship_date := 120, delivery_date := 122, carrier := "UPS",
        transit_days := 2, meets_customer_window := true }
      { order_id := "ORD-00002", line_id := "LINE-00002", item := "WIDGET-002",
        quantity := 10, requested_date := 120, allow_partial_flag := true }).map
        (fun d => (d.shipments.length, d.shipments.map (fun s => s.quantity))) =
      some (2, [(2 : Int), 8]) ∧
    (2 : Int) < ConfirmOrder.SystemConfig.base.min_split_quantity ∧ 1 < 2 := by
  refine ⟨by decide, by decide, by decide⟩

/-- C7 amended: `evaluate_split` reads neither configured limit; it produces
at most 2 shipments for every input, which incidentally respects the default
`max_splits_per_order = 3`, but shipments below `min_split_quantity` are
emitted unchanged (see the counterexample). -/
theorem claim_c7_split_limits (cfg : ConfirmOrder.SystemConfig)
    (atp : ConfirmOrder.ATPResult) (schedule : ConfirmOrder.ScheduleResult)
    (line : ConfirmOrder.OrderLine) (d : ConfirmOrder.SplitDecision)
    (hd : ConfirmOrder.evaluate_split cfg atp schedule line = some d) :
    d.shipments.length ≤ 2 ∧
    d.shipments.length ≤ ConfirmOrder.SystemConfig.base.max_splits_per_order := by
  simp only [ConfirmOrder.evaluate_split] at hd
  split at hd
  · simp only [Option.some.injEq] at hd
    subst hd
    exact ⟨by simp, by simp [ConfirmOrder.SystemConfig.base]⟩
  · split at hd
    · simp only [Option.some.injEq] at hd
      subst hd
      exact ⟨by simp, by simp [ConfirmOrder.SystemConfig.base]⟩
    · split at hd
      · split at hd
        · simp at hd
        · simp only [Option.some.injEq] at hd
          subst hd
          exact ⟨by simp, by simp [ConfirmOrder.SystemConfig.base]⟩
      · simp only [Option.some.injEq] at hd
        subst hd
        exact ⟨by simp, by simp [ConfirmOrder.SystemConfig.base]⟩

/-- Witness for the amended C7 on the fully-available branch. -/
theorem claim_c7_split_limits_witness :
    ConfirmOrder.evaluate_split .base
      { order_id := "ORD-00002", line_id := "LINE-00002", item := "WIDGET-002",
        requested_quantity := 10, requested_date := 120, available_quantity := 10,
        earliest_available_date := some 120, status := "AVAILABLE", source := "STOCK" }
      { order_id := "ORD-00002", line_id := "LINE-00002", item := "WIDGET-002",
        quantity := 10, ship_date := 120, delivery_date := 122, carrier := "UPS",
        transit_days := 2, meets_customer_window := true }
      { order_id := "ORD-00002", line_id := "LINE-00002", item := "WIDGET-002",
        quantity := 10, requested_date := 120, allow_partial_flag := true } =
      some
        { order_id := "ORD-00002", line_id := "LINE-00002", item := "WIDGET-002",
          total_quantity := 10,
          shipments := [{ quantity := 10, ship_date := 120, delivery_date := 122, carrier := "UPS", status := "COMPLETE" }],
          split_reason := "NONE",
          messages := ["No split required - full quantity available"] } ∧
    ([({ quantity := 10, ship_date := 120, delivery_date := 122, carrier := "UPS", status := "COMPLETE" } : ConfirmOrder.Shipment)].length ≤ 2 ∧
      [({ quantity := 10, ship_date := 120, delivery_date := 122, carrier := "UPS", status := "COMPLETE" } : ConfirmOrder.Shipment)].length ≤
        ConfirmOrder.SystemConfig.base.max_splits_per_order) :=
  ⟨by decide,
   claim_c7_split_limits .base
    { order_id := "ORD-00002", line_id := "LINE-00002", item := "WIDGET-002",
      requested_quantity := 10, requested_date := 120, available_quantity := 10,
      earliest_available_date := some 120, status := "AVAILABLE", source := "STOCK" }
    { order_id := "ORD-00002", line_id := "LINE-00002", item := "WIDGET-002",
      quantity := 10, ship_date := 120, delivery_date := 122, carrier := "UPS",
      transit_days := 2, meets_customer_window := true }
    { order_id := "ORD-00002", line_id := "LINE-00002", item := "WIDGET-002",
      quantity := 10, requested_date := 120, allow_partial_flag := true }
    { order_id := "ORD-00002", line_id := "LINE-00002", item := "WIDGET-002",
      total_quantity := 10,
      shipments := [{ quantity := 10, ship_date := 120, delivery_date := 122, carrier := "UPS", status := "COMPLETE" }],
      split_reason := "NONE",
      messages := ["No split required - full quantity available"] }
    (by decide)⟩

/-- Counterexample to C5 as stated: with the configured
`max_retry_attempts = 3` and every simulated send failing,
`dispatch_confirmation` returns status RETRY (not FAILED) with
`attempt_count = 2` (not 3): the code makes at most two attempts. -/
theorem claim_c5_counterexample :
    (ConfirmOrder.dispatch_confirmation .base
      { order_id := "ORD-00003", customer_id := "CUST-0001",
        customer_name := "Customer 1", customer_email := "customer1@example.com",
        confirmation_number := "CNF-ORD-00003-20240101120000",
        confirmation_date := "2024-01-01 12:00:00", total_lines := 1,
        total_shipments := 1, terms := "Net 30 days.", formatted_email := "" }
      { order_id := "ORD-00003", line_id := "LINE-00003", item := "WIDGET-003",
        quantity := 10, requested_date := 120 }
      "2024-01-01 12:00:01" false false).status = "RETRY" ∧
    (ConfirmOrder.dispatch_confirmation .base
      { order_id := "ORD-00003", customer_id := "CUST-0001",
        customer_name := "Customer 1", customer_email := "customer1@example.com",
        confirmation_number := "CNF-ORD-00003-20240101120000",
        confirmation_date := "2024-01-01 12:00:00", total_lines := 1,
        total_shipments := 1, terms := "Net 30 days.", formatted_email := "" }
      { order_id := "ORD-00003", line_id := "LINE-00003", item := "WIDGET-003",
        quantity := 10, requested_date := 120 }
      "2024-01-01 12:00:01" false false).attempt_count = 2 ∧
    ¬((ConfirmOrder.dispatch_confirmation .base
      { order_id := "ORD-00003", customer_id := "CUST-0001",
        customer_name := "Customer 1", customer_email := "customer1@example.com",
        confirmation_number := "CNF-ORD-00003-20240101120000",
        confirmation_date := "2024-01-01 12:00:00", total_lines := 1,
        total_shipments := 1, terms := "Net 30 days.", formatted_email := "" }
      { order_id := "ORD-00003", line_id := "LINE-00003", item := "WIDGET-003",
        quantity := 10, requested_date := 120 }
      "2024-01-01 12:00:01" false false).status = "FAILED" ∧
      (ConfirmOrder.dispatch_confirmation .base
      { order_id := "ORD-00003", customer_id := "CUST-0001",
        customer_name := "Customer 1", customer_email := "customer1@example.com",
        confirmation_number := "CNF-ORD-00003-20240101120000",
        confirmation_date := "2024-01-01 12:00:00", total_lines := 1,
        total_shipments := 1, terms := "Net 30 days.", formatted_email := "" }
      { order_id := "ORD-00003", line_id := "LINE-00003", item := "WIDGET-003",
        quantity := 10, requested_date := 120 }
      "2024-01-01 12:00:01" false false).attempt_count =
        ConfirmOrder.SystemConfig.base.max_retry_attempts) := by
  refine ⟨by decide, by decide, by decide⟩

/-- C5 amended: `attempt_count` never exceeds `max_retry_attempts` whenever
that bound is at least 1; when every send fails and `max_retry_attempts ≥ 2`
(the configured value is 3) the result is RETRY with `attempt_count = 2`;
FAILED is returned only when `max_retry_attempts ≤ 1`, on the single
attempt. -/
theorem claim_c5_dispatch_bounds :
    (∀ (cfg : ConfirmOrder.SystemConfig) (confirmation : ConfirmOrder.Confirmation)
      (line : ConfirmOrder.OrderLine) (now : String) (r1 r2 : Bool),
      1 ≤ cfg.max_retry_attempts →
      (ConfirmOrder.dispatch_confirmation cfg confirmation line now r1 r2).attempt_count ≤
        cfg.max_retry_attempts) ∧
    (∀ (cfg : ConfirmOrder.SystemConfig) (confirmation : ConfirmOrder.Confirmation)
      (line : ConfirmOrder.OrderLine) (now : String),
      2 ≤ cfg.max_retry_attempts →
      (ConfirmOrder.dispatch_confirmation cfg confirmation line now false false).status =
        "RETRY" ∧
      (ConfirmOrder.dispatch_confirmation cfg confirmation line now false
        false).attempt_count = 2) ∧
    (∀ (cfg : ConfirmOrder.SystemConfig) (confirmation : ConfirmOrder.Confirmation)
      (line : ConfirmOrder.OrderLine) (now : String) (r2 : Bool),
      cfg.max_retry_attempts ≤ 1 →
      (ConfirmOrder.dispatch_confirmation cfg confirmation line now false r2).status =
        "FAILED" ∧
      (ConfirmOrder.dispatch_confirmation cfg confirmation line now false
        r2).attempt_count = 1) := by
  refine ⟨?_, ?_, ?_⟩
  · intro cfg confirmation line now r1 r2 h
    cases r1
    · simp only [ConfirmOrder.dispatch_confirmation, Bool.false_eq_true, if_false]
      by_cases h2 : 1 < cfg.max_retry_attempts
      · rw [if_pos h2]
        cases r2 <;> simp <;> omega
      · rw [if_neg h2]
        simpa using h
    · simpa [ConfirmOrder.dispatch_confirmation] using h
  · intro cfg confirmation line now h
    simp only [ConfirmOrder.dispatch_confirmation, Bool.false_eq_true, if_false]
    rw [if_pos (by omega : 1 < cfg.max_retry_attempts)]
    exact ⟨rfl, rfl⟩
  · intro cfg confirmation line now r2 h
    simp only [ConfirmOrder.dispatch_confirmation, Bool.false_eq_true, if_false]
    rw [if_neg (by omega : ¬1 < cfg.max_retry_attempts)]
    exact ⟨rfl, rfl⟩

/-- Witness for the amended C5 at the configured `max_retry_attempts = 3`
with both simulated sends failing. -/
theorem claim_c5_dispatch_bounds_witness :
    (ConfirmOrder.dispatch_confirmation .base
      { order_id := "ORD-00003", customer_id := "CUST-0001",
        customer_name := "Customer 1", customer_email := "customer1@example.com",
        confirmation_number := "CNF-ORD-00003-20240101120000",
        confirmation_date := "2024-01-01 12:00:00", total_lines := 1,
        total_shipments := 1, terms := "Net 30 days.", formatted_email := "" }
      { order_id := "ORD-00003", line_id := "LINE-00003", item := "WIDGET-003",
        quantity := 10, requested_date := 120 }
      "2024-01-01 12:00:01" false false).attempt_count ≤
      ConfirmOrder.SystemConfig.base.max_retry_attempts ∧
    (ConfirmOrder.dispatch_confirmation .base
      { order_id := "ORD-00003", customer_id := "CUST-0001",
        customer_name := "Customer 1", customer_email := "customer1@example.com",
        confirmation_number := "CNF-ORD-00003-20240101120000",
        confirmation_date := "2024-01-01 12:00:00", total_lines := 1,
        total_shipments := 1, terms := "Net 30 days.", formatted_email := "" }
      { order_id := "ORD-00003", line_id := "LINE-00003", item := "WIDGET-003",
        quantity := 10, requested_date := 120 }
      "2024-01-01 12:00:01" false false).status = "RETRY" :=
  ⟨claim_c5_dispatch_bounds.1 .base _ _ _ false false (by decide),
   (claim_c5_dispatch_bounds.2.1 .base
    { order_id := "ORD-00003", customer_id := "CUST-0001",
      customer_name := "Customer 1", customer_email := "customer1@example.com",
      confirmation_number := "CNF-ORD-00003-20240101120000",
      confirmation_date := "2024-01-01 12:00:00", total_lines := 1,
      total_shipments := 1, terms := "Net 30 days.", formatted_email := "" }
    { order_id := "ORD-00003", line_id := "LINE-00003", item := "WIDGET-003",
      quantity := 10, requested_date := 120 }
    "2024-01-01 12:00:01" (by decide)).1⟩

/-- Counterexample to C6 as stated: in `Confirm_Order_Process.py`, a line
with NO inventory row returns BACKORDER/FUTURE_PRODUCTION immediately even
though a confirmed matching purchase order could cover it, whereas the same
line with a zero-available row (on-hand = safety stock) does reach the
inbound-PO step — so a missing row is NOT treated like zero stock there. -/
theorem claim_c6_counterexample :
    (ConfirmOrder.calculate_atp .base
      { order_id := "ORD-00004", line_id := "LINE-00004", item := "WIDGET-004",
        quantity := 150, requested_date := 120 }
      []
      [{ po_id := "PO-00004", item := "WIDGET-004", quantity := 200,
         expected_delivery_date := 125, location := "WAREHOUSE_01",
         confirmed := true }]).source = "FUTURE_PRODUCTION" ∧
    (ConfirmOrder.calculate_atp .base
      { order_id := "ORD-00004", line_id := "LINE-00004", item := "WIDGET-004",
        quantity := 150, requested_date := 120 }
      [{ item := "WIDGET-004", location := "WAREHOUSE_01", on_hand_qty := 10,
         safety_stock_qty := 10, last_updated := "t0" }]
      [{ po_id := "PO-00004", item := "WIDGET-004", quantity := 200,
         expected_delivery_date := 125, location := "WAREHOUSE_01",
         confirmed := true }]).source = "INBOUND_PO" ∧
    "FUTURE_PRODUCTION" ≠ "INBOUND_PO" := by
  refine ⟨by decide, by decide, by decide⟩

theorem relevantInventory_nil (line : ATPChecker.OrderLine) :
    ATPChecker.relevantInventory line [] = [] := by
  simp [ATPChecker.relevantInventory]

/-- C6 amended: the `ATP_Checker_Agent.py` engine treats an item with no
matching inventory row exactly as zero stock — its result equals the result
on an empty inventory, so the inbound-PO step is still considered before
FUTURE_PRODUCTION (first conjunct); the `Confirm_Order_Process.py` checker
instead returns its fixed BACKORDER/FUTURE_PRODUCTION result at once,
ignoring purchase orders entirely (second conjunct).  Neither computation
fails. -/
theorem claim_c6_missing_inventory :
    (∀ (cfg : ATPChecker.ATPConfig) (today : Int) (line : ATPChecker.OrderLine)
      (inventory : List ATPChecker.InventorySnapshot)
      (purchase_orders : List ATPChecker.PurchaseOrder),
      ATPChecker.relevantInventory line inventory = [] →
      ATPChecker.calculate_atp cfg today line inventory purchase_orders =
        ATPChecker.calculate_atp cfg today line [] purchase_orders) ∧
    (∀ (cfg : ConfirmOrder.SystemConfig) (line : ConfirmOrder.OrderLine)
      (inventory : List ConfirmOrder.InventorySnapshot)
      (purchase_orders : List ConfirmOrder.PurchaseOrder),
      inventory.find? (fun i => i.item == line.item) = none →
      ConfirmOrder.calculate_atp cfg line inventory purchase_orders =
        { order_id := line.order_id, line_id := line.line_id, item := line.item
          requested_quantity := line.quantity, requested_date := line.requested_date
          available_quantity := 0
          earliest_available_date :=
            some (line.requested_date + cfg.default_lead_time_days)
          status := "BACKORDER", source := "FUTURE_PRODUCTION"
          messages := ["No inventory found for " ++ line.item] }) := by
  constructor
  · intro cfg today line inventory purchase_orders h
    simp only [ATPChecker.calculate_atp, ATPChecker.availableStock,
      ATPChecker.totalOnHand, ATPChecker.totalSafetyStock, h, relevantInventory_nil]
  · intro cfg line inventory purchase_orders h
    simp only [ConfirmOrder.calculate_atp, h]

/-- Witness for the amended C6: an inventory holding only a different item
behaves like the empty inventory for the engine, and the
`Confirm_Order_Process.py` checker returns its fixed no-inventory result. -/
theorem claim_c6_missing_inventory_witness :
    ATPChecker.calculate_atp .base 100
      { order_id := "SO-1001", line_id := "000", item := "WIDGET-A", quantity := 150,
        requested_date := 120 }
      [{ item := "GADGET-X", location := "MAIN", on_hand_qty := 500,
         safety_stock_qty := 10, last_updated := "t0" }]
      [{ po_id := "PO-1001", item := "WIDGET-A", quantity := 200,
         expected_delivery_date := 110, location := "MAIN", confirmed := true }] =
      ATPChecker.calculate_atp .base 100
        { order_id := "SO-1001", line_id := "000", item := "WIDGET-A", quantity := 150,
          requested_date := 120 }
        []
        [{ po_id := "PO-1001", item := "WIDGET-A", quantity := 200,
           expected_delivery_date := 110, location := "MAIN", confirmed := true }] ∧
    ConfirmOrder.calculate_atp .base
      { order_id := "ORD-00004", line_id := "LINE-00004", item := "WIDGET-004",
        quantity := 150, requested_date := 120 }
      []
      [{ po_id := "PO-00004", item := "WIDGET-004", quantity := 200,
         expected_delivery_date := 125, location := "WAREHOUSE_01",
         confirmed := true }] =
      { order_id := "ORD-00004", line_id := "LINE-00004", item := "WIDGET-004"
        requested_quantity := 150, requested_date := 120
        available_quantity := 0
        earliest_available_date := some (120 + ConfirmOrder.SystemConfig.base.default_lead_time_days)
        status := "BACKORDER", source := "FUTURE_PRODUCTION"
        messages := ["No inventory found for " ++ "WIDGET-004"] } :=
  ⟨claim_c6_missing_inventory.1 .base 100 _ _ _ (by decide),
   claim_c6_missing_inventory.2 .base _ [] _ (by decide)⟩

namespace ConfirmOrder

theorem ledgerShaped_nil : LedgerShaped [] := by
  intro i h
  exact absurd h (by simp)

/-- The step `log_action` preserves the ledger shape when the clock rendering has the
fixed 20-character `strftime` width. -/
theorem ledgerShaped_log_action (logs : List AuditLog) (now order_id agent action : String)
    (input_data output_data : PyVal) (status : String) (duration_ms : Int)
    (h20 : now.length = 20) (hwf : LedgerShaped logs) :
    LedgerShaped (log_action logs now order_id agent action input_data output_data
      status duration_ms).1 := by
  intro i hi
  have hi2 : i < logs.length + 1 := by
    simpa [log_action] using hi
  by_cases hlt : i < logs.length
  · have hget : (log_action logs now order_id agent action input_data output_data
        status duration_ms).1[i] = logs[i] :=
      List.getElem_append_left hlt
    rw [hget]
    exact hwf i hlt
  · have hieq : i = logs.length := by omega
    have hget : (log_action logs now order_id agent action input_data output_data
        status duration_ms).1[i] =
        (log_action logs now order_id agent action input_data output_data
          status duration_ms).2 :=
      List.getElem_concat_length _ _ _ hieq _
    rw [hget, hieq]
    exact ⟨rfl, h20⟩

/-- In a shaped ledger, any two entries at different positions carry
different log ids: the fixed-width timestamp makes `mkLogId` injective and
the embedded sequence numbers differ. -/
theorem ledger_ids_distinct (logs : List AuditLog) (hwf : LedgerShaped logs) :
    ∀ i j (hi : i < logs.length) (hj : j < logs.length), i ≠ j →
      logs[i].log_id ≠ logs[j].log_id := by
  intro i j hi hj hne heq
  obtain ⟨hidi, hleni⟩ := hwf i hi
  obtain ⟨hidj, hlenj⟩ := hwf j hj
  rw [hidi, hidj] at heq
  exact hne (mkLogId_inj (by rw [hleni, hlenj]) heq).2

end ConfirmOrder

/-- Counterexample to C9 as stated: `get_audit_trail` uses Python truthiness
(`if order_id:`), so querying with the empty-string order id returns the
WHOLE ledger — here an entry whose order id is `ORD-1`, not `""` — instead
of exactly the entries with that order id. -/
theorem claim_c9_counterexample :
    (ConfirmOrder.get_audit_trail
        (ConfirmOrder.log_action [] "20240101120000000000" "ORD-1" "ATP_Checker"
          "calculate_atp" (PyVal.vint 1) (PyVal.vint 1) "SUCCESS" 1).1
        (some "")).map (fun log => log.order_id) = ["ORD-1"] ∧
    ("ORD-1" : String) ≠ "" := by
  exact ⟨rfl, by decide⟩

/-- C9 amended: `log_action` appends exactly one entry (first conjunct),
keeps the ledger shaped — every entry's id embeds its own strictly
increasing position and fixed-width timestamp (second conjunct) — so all ids
are pairwise distinct (third conjunct); for every NON-empty order id,
`get_audit_trail` is exactly the in-order filter of the ledger (fourth to
sixth conjuncts; a `None` or empty-string argument instead returns the whole
ledger, see the counterexample); and `export_logs` of the extended ledger is
the old entries' serialization, unchanged, with the new entry's appended
(last conjunct).  Exporting twice with no intervening writes is the same
pure function of the same ledger value and is identical by construction. -/
theorem claim_c9_ledger (logs : List ConfirmOrder.AuditLog)
    (now order_id agent action : String) (input_data output_data : PyVal)
    (status : String) (duration_ms : Int) (q : String)
    (logs2 : List ConfirmOrder.AuditLog) (e : ConfirmOrder.AuditLog)
    (h20 : now.length = 20) (hwf : ConfirmOrder.LedgerShaped logs) (hq : q ≠ "")
    (hstep : ConfirmOrder.log_action logs now order_id agent action input_data
      output_data status duration_ms = (logs2, e)) :
    logs2 = logs ++ [e] ∧
    ConfirmOrder.LedgerShaped logs2 ∧
    (∀ i j (hi : i < logs2.length) (hj : j < logs2.length), i ≠ j →
      logs2[i].log_id ≠ logs2[j].log_id) ∧
    ConfirmOrder.get_audit_trail logs2 (some q) =
      logs2.filter (fun log => some log.order_id == some q) ∧
    (ConfirmOrder.get_audit_trail logs2 (some q)).Sublist logs2 ∧
    (∀ l, l ∈ ConfirmOrder.get_audit_trail logs2 (some q) ↔
      l ∈ logs2 ∧ l.order_id = q) ∧
    ConfirmOrder.export_logs logs2 =
      PyVal.vlist ((logs.map ConfirmOrder.serializeLog) ++
        [ConfirmOrder.serializeLog e]) := by
  injection hstep with hL hE
  subst hL
  subst hE
  have hshape : ConfirmOrder.LedgerShaped
      (ConfirmOrder.log_action logs now order_id agent action input_data output_data
        status duration_ms).1 :=
    ConfirmOrder.ledgerShaped_log_action logs now order_id agent action input_data
      output_data status duration_ms h20 hwf
  have ht : ATPChecker.truthyOpt (some q) = true := by
    simp [ATPChecker.truthyOpt, hq]
  refine ⟨rfl, hshape, ConfirmOrder.ledger_ids_distinct _ hshape, ?_, ?_, ?_, ?_⟩
  · simp only [ConfirmOrder.get_audit_trail, ht, if_true]
  · simp only [ConfirmOrder.get_audit_trail, ht, if_true]
    exact List.filter_sublist _
  · intro l
    simp only [ConfirmOrder.get_audit_trail, ht, if_true, List.mem_filter]
    simp
  · simp [ConfirmOrder.export_logs]

/-- Witness for the amended C9: one append to the empty ledger, queried with
the non-empty order id it carries. -/
theorem claim_c9_ledger_witness :
    (ConfirmOrder.log_action [] "20240101120000000000" "ORD-1" "ATP_Checker"
      "calculate_atp" (PyVal.vint 1) (PyVal.vint 1) "SUCCESS" 1).1 =
      [] ++ [(ConfirmOrder.log_action [] "20240101120000000000" "ORD-1" "ATP_Checker"
        "calculate_atp" (PyVal.vint 1) (PyVal.vint 1) "SUCCESS" 1).2] ∧
    ConfirmOrder.get_audit_trail
        (ConfirmOrder.log_action [] "20240101120000000000" "ORD-1" "ATP_Checker"
          "calculate_atp" (PyVal.vint 1) (PyVal.vint 1) "SUCCESS" 1).1
        (some "ORD-1") =
      ((ConfirmOrder.log_action [] "20240101120000000000" "ORD-1" "ATP_Checker"
        "calculate_atp" (PyVal.vint 1) (PyVal.vint 1) "SUCCESS" 1).1).filter
        (fun log => some log.order_id == some "ORD-1") ∧
    ConfirmOrder.export_logs
        (ConfirmOrder.log_action [] "20240101120000000000" "ORD-1" "ATP_Checker"
          "calculate_atp" (PyVal.vint 1) (PyVal.vint 1) "SUCCESS" 1).1 =
      PyVal.vlist (([] : List ConfirmOrder.AuditLog).map ConfirmOrder.serializeLog ++
        [ConfirmOrder.serializeLog
          (ConfirmOrder.log_action [] "20240101120000000000" "ORD-1" "ATP_Checker"
            "calculate_atp" (PyVal.vint 1) (PyVal.vint 1) "SUCCESS" 1).2]) :=
  have h := claim_c9_ledger [] "20240101120000000000" "ORD-1" "ATP_Checker"
    "calculate_atp" (PyVal.vint 1) (PyVal.vint 1) "SUCCESS" 1 "ORD-1" _ _
    (by decide) ConfirmOrder.ledgerShaped_nil (by decide) rfl
  ⟨h.1, h.2.2.2.1, h.2.2.2.2.2.2⟩
